import Mathlib

/-!
Shallow embedding of `easy_handeye2/handeye_calibration.py` and proofs of the
specified properties of its operations.

Modelling conventions:
* Python exceptions are modelled by `Except PyError`; the constructors of
  `PyError` mirror the Python exception classes that the module can raise.
* Python `dict` values (as produced by `dataclasses.asdict` and consumed by
  `HandeyeCalibration.from_dict`) are modelled by the mutual inductives
  `PyObj` / `PyDict`: an association list of string keys and values.
* The transform components are IEEE floats in the source; no operation of the
  module computes with them (they are only copied between containers), so they
  are modelled by exact rationals.
* The typed records enforce what the Python dataclass annotations declare;
  reconstruction from an untyped mapping checks the value kinds where the
  ROS 2 message setters do (the transform components) and where this typed
  embedding requires it (the parameter fields, which the Python dataclass
  itself would not check at runtime - a case none of the verified properties
  exercises).
-/

/-- Python exception kinds raised (or propagated) by the module. -/
inductive PyError : Type where
  | attributeError (msg : String)
  | keyError (key : String)
  | typeError (msg : String)
  | valueError (msg : String)
  | fileNotFoundError (path : String)
  | parseError (msg : String)

deriving instance DecidableEq for PyError

/-- A reconstruction failure caused by a missing key or a wrongly-typed value:
the spec's `SchemaMismatch` error category. -/
def PyError.isSchemaMismatch : PyError → Bool
  | .keyError _ => true
  | .typeError _ => true
  | _ => false

/-- `geometry_msgs.msg.Vector3`; fields default to zero. -/
structure geometry_msgs.Vector3 where
  x : Rat := 0
  y : Rat := 0
  z : Rat := 0

deriving instance DecidableEq for geometry_msgs.Vector3

/-- `geometry_msgs.msg.Quaternion`; the ROS 2 default is the identity rotation
`(0, 0, 0, 1)`. -/
structure geometry_msgs.Quaternion where
  x : Rat := 0
  y : Rat := 0
  z : Rat := 0
  w : Rat := 1

deriving instance DecidableEq for geometry_msgs.Quaternion

/-- `geometry_msgs.msg.Transform`; defaults to zero translation and identity
rotation. -/
structure geometry_msgs.Transform where
  translation : geometry_msgs.Vector3 := {}
  rotation : geometry_msgs.Quaternion := {}

deriving instance DecidableEq for geometry_msgs.Transform

/-- The `std_msgs.msg.Header` part of a stamped transform (only the frame name
matters to this module; the time stamp is never touched). -/
structure std_msgs.Header where
  frame_id : String := ""

deriving instance DecidableEq for std_msgs.Header

/-- `geometry_msgs.msg.TransformStamped`. -/
structure geometry_msgs.TransformStamped where
  header : std_msgs.Header := {}
  child_frame_id : String := ""
  transform : geometry_msgs.Transform := {}

deriving instance DecidableEq for geometry_msgs.TransformStamped

/-- The `HandeyeCalibrationParameters` dataclass: seven required fields and two
fields with declared defaults. -/
structure HandeyeCalibrationParameters where
  name : String
  eye_in_hand : Bool
  robot_base_frame : String
  robot_effector_frame : String
  tracking_base_frame : String
  tracking_marker_frame : String
  freehand_robot_movement : Bool
  move_group_namespace : String := "/"
  move_group : String := "manipulator"

deriving instance DecidableEq for HandeyeCalibrationParameters

/-- The `HandeyeCalibration` object: parameters plus a stamped transform. -/
structure HandeyeCalibration where
  parameters : HandeyeCalibrationParameters
  transformation : geometry_msgs.TransformStamped

deriving instance DecidableEq for HandeyeCalibration

/-- `HandeyeCalibration.__init__`.  Both arguments default to `None` in the
source; `none` models an omitted argument.  Storing `parameters = None` and
then reading `self.parameters.eye_in_hand` raises `AttributeError`, so the
`none` case fails.  Otherwise the stamped transform wraps the given transform
(or a default-constructed one) and the tf names are derived from the
parameters. -/
def HandeyeCalibration.init (calibration_parameters : Option HandeyeCalibrationParameters)
    (transformation : Option geometry_msgs.Transform) : Except PyError HandeyeCalibration :=
  match calibration_parameters with
  | none => Except.error (.attributeError "NoneType object has no attribute eye_in_hand")
  | some params =>
    let t := transformation.getD {}
    Except.ok
      { parameters := params
        transformation :=
          { header :=
              { frame_id :=
                  if params.eye_in_hand then params.robot_effector_frame
                  else params.robot_base_frame }
            child_frame_id := params.tracking_base_frame
            transform := t } }

mutual

/-- A Python object as far as this module's (de)serialization can see it:
strings, booleans, numbers, and string-keyed mappings. -/
inductive PyObj : Type where
  | pystr (s : String) : PyObj
  | pybool (b : Bool) : PyObj
  | pynum (q : Rat) : PyObj
  | pydict (d : PyDict) : PyObj

/-- A Python `dict` with string keys, as an association list. -/
inductive PyDict : Type where
  | nil : PyDict
  | cons (key : String) (val : PyObj) (rest : PyDict) : PyDict

end

/-- Key lookup in a dict. -/
def PyDict.get? : PyDict → String → Option PyObj
  | .nil, _ => none
  | .cons k v rest, key => if k = key then some v else rest.get? key

/-- The list of keys of a dict, in order. -/
def PyDict.keys : PyDict → List String
  | .nil => []
  | .cons k _ rest => k :: rest.keys

/-- Python subscription `obj[key]`: `KeyError` when the key is absent from a
dict, `TypeError` when the object is not a string-keyed mapping at all. -/
def PyObj.subscript : PyObj → String → Except PyError PyObj
  | .pydict d, key =>
    match d.get? key with
    | some v => Except.ok v
    | none => Except.error (.keyError key)
  | _, _ => Except.error (.typeError "object is not subscriptable by string")

/-- Extract a string value (`TypeError` otherwise). -/
def PyObj.asStr : PyObj → Except PyError String
  | .pystr s => Except.ok s
  | _ => Except.error (.typeError "expected a string value")

/-- Extract a boolean value (`TypeError` otherwise). -/
def PyObj.asBool : PyObj → Except PyError Bool
  | .pybool b => Except.ok b
  | _ => Except.error (.typeError "expected a boolean value")

/-- Extract a numeric value, as the ROS 2 float field setters require
(`TypeError`/assertion failure otherwise). -/
def PyObj.asNum : PyObj → Except PyError Rat
  | .pynum q => Except.ok q
  | _ => Except.error (.typeError "expected a float value")

/-- What `**obj` requires: the object must be a mapping. -/
def PyObj.asMapping : PyObj → Except PyError PyDict
  | .pydict d => Except.ok d
  | _ => Except.error (.typeError "argument after two stars must be a mapping")

/-- `dataclasses.asdict` on a `HandeyeCalibrationParameters`: every field, in
declaration order. -/
def asdict (p : HandeyeCalibrationParameters) : PyDict :=
  .cons "name" (.pystr p.name) (
  .cons "eye_in_hand" (.pybool p.eye_in_hand) (
  .cons "robot_base_frame" (.pystr p.robot_base_frame) (
  .cons "robot_effector_frame" (.pystr p.robot_effector_frame) (
  .cons "tracking_base_frame" (.pystr p.tracking_base_frame) (
  .cons "tracking_marker_frame" (.pystr p.tracking_marker_frame) (
  .cons "freehand_robot_movement" (.pybool p.freehand_robot_movement) (
  .cons "move_group_namespace" (.pystr p.move_group_namespace) (
  .cons "move_group" (.pystr p.move_group) .nil))))))))

/-- The field names of the dataclass, in declaration order. -/
def paramFieldNames : List String :=
  ["name", "eye_in_hand", "robot_base_frame", "robot_effector_frame",
   "tracking_base_frame", "tracking_marker_frame", "freehand_robot_movement",
   "move_group_namespace", "move_group"]

/-- A required keyword argument holding a string. -/
def reqStr (d : PyDict) (key : String) : Except PyError String :=
  match d.get? key with
  | some v => v.asStr
  | none => Except.error (.typeError "missing required keyword argument")

/-- A required keyword argument holding a boolean. -/
def reqBool (d : PyDict) (key : String) : Except PyError Bool :=
  match d.get? key with
  | some v => v.asBool
  | none => Except.error (.typeError "missing required keyword argument")

/-- An optional keyword argument holding a string, with a default. -/
def optStr (d : PyDict) (key : String) (dflt : String) : Except PyError String :=
  match d.get? key with
  | some v => v.asStr
  | none => Except.ok dflt

/-- `HandeyeCalibrationParameters(**d)`: keyword construction from a dict.
Unknown keyword names and missing required fields raise `TypeError`. -/
def HandeyeCalibrationParameters.from_kwargs (d : PyDict) :
    Except PyError HandeyeCalibrationParameters :=
  if d.keys.all (fun k => paramFieldNames.contains k) then do
    let nm ← reqStr d "name"
    let eih ← reqBool d "eye_in_hand"
    let rbf ← reqStr d "robot_base_frame"
    let ref ← reqStr d "robot_effector_frame"
    let tbf ← reqStr d "tracking_base_frame"
    let tmf ← reqStr d "tracking_marker_frame"
    let frm ← reqBool d "freehand_robot_movement"
    let mgn ← optStr d "move_group_namespace" "/"
    let mg ← optStr d "move_group" "manipulator"
    Except.ok
      { name := nm, eye_in_hand := eih, robot_base_frame := rbf,
        robot_effector_frame := ref, tracking_base_frame := tbf,
        tracking_marker_frame := tmf, freehand_robot_movement := frm,
        move_group_namespace := mgn, move_group := mg }
  else Except.error (.typeError "unexpected keyword argument")

/-- `HandeyeCalibration.to_dict`: the canonical two-key mapping. -/
def HandeyeCalibration.to_dict (calibration : HandeyeCalibration) : PyDict :=
  .cons "parameters" (.pydict (asdict calibration.parameters))
   (.cons "transformation"
     (.pydict
       (.cons "x" (.pynum calibration.transformation.transform.translation.x)
       (.cons "y" (.pynum calibration.transformation.transform.translation.y)
       (.cons "z" (.pynum calibration.transformation.transform.translation.z)
       (.cons "qx" (.pynum calibration.transformation.transform.rotation.x)
       (.cons "qy" (.pynum calibration.transformation.transform.rotation.y)
       (.cons "qz" (.pynum calibration.transformation.transform.rotation.z)
       (.cons "qw" (.pynum calibration.transformation.transform.rotation.w)
        .nil))))))))
     .nil)

/-- `HandeyeCalibration.from_dict`, following the source's evaluation order:
`in_dict['transformation']` first, then the parameters keyword construction,
then the three translation components (fetched, then type-checked by the
`Vector3` setters), then the four rotation components, then `__init__`. -/
def HandeyeCalibration.from_dict (in_dict : PyObj) : Except PyError HandeyeCalibration := do
  let tr ← in_dict.subscript "transformation"
  let pv ← in_dict.subscript "parameters"
  let pd ← pv.asMapping
  let params ← HandeyeCalibrationParameters.from_kwargs pd
  let xv ← tr.subscript "x"
  let yv ← tr.subscript "y"
  let zv ← tr.subscript "z"
  let x ← xv.asNum
  let y ← yv.asNum
  let z ← zv.asNum
  let qxv ← tr.subscript "qx"
  let qyv ← tr.subscript "qy"
  let qzv ← tr.subscript "qz"
  let qwv ← tr.subscript "qw"
  let qx ← qxv.asNum
  let qy ← qyv.asNum
  let qz ← qzv.asNum
  let qw ← qwv.asNum
  HandeyeCalibration.init (some params)
    (some { translation := { x := x, y := y, z := z }
            rotation := { x := qx, y := qy, z := qz, w := qw } })

/-!
Model of the external `yaml` library.  The module only relies on two facts
about it: `yaml.dump` renders a value as text and `yaml.safe_load` parses that
text back to an equal value (and fails with a parse error on text it cannot
understand).  The concrete rendering below is a simplified unambiguous textual
encoding - the repository's contract with the library is only the round-trip,
which is proved as `yaml.safe_load_dump`.
-/

/-- Unary rendering of a natural number, terminated by a colon. -/
def encodeNat : Nat → List Char
  | 0 => [':']
  | n + 1 => '1' :: encodeNat n

/-- Parse a unary natural number. -/
def decodeNat : List Char → Option (Nat × List Char)
  | ':' :: rest => some (0, rest)
  | '1' :: rest => (decodeNat rest).map (fun p => (p.1 + 1, p.2))
  | _ => none

/-- A string is rendered as its length followed by its characters. -/
def encodeStr (s : String) : List Char :=
  encodeNat s.data.length ++ s.data

/-- Parse a length-prefixed string. -/
def decodeStr (cs : List Char) : Option (String × List Char) :=
  match decodeNat cs with
  | some (n, rest) =>
    if n ≤ rest.length then some (⟨rest.take n⟩, rest.drop n) else none
  | none => none

/-- An integer is a sign marker followed by its magnitude. -/
def encodeInt : Int → List Char
  | .ofNat n => '+' :: encodeNat n
  | .negSucc n => '-' :: encodeNat n

/-- Parse a signed integer. -/
def decodeInt : List Char → Option (Int × List Char)
  | '+' :: rest => (decodeNat rest).map (fun p => (Int.ofNat p.1, p.2))
  | '-' :: rest => (decodeNat rest).map (fun p => (Int.negSucc p.1, p.2))
  | _ => none

/-- A rational is its numerator followed by its denominator. -/
def encodeRat (q : Rat) : List Char :=
  encodeInt q.num ++ encodeNat q.den

/-- Parse a rational. -/
def decodeRat (cs : List Char) : Option (Rat × List Char) :=
  match decodeInt cs with
  | some (n, rest) =>
    match decodeNat rest with
    | some (d, rest2) => some (mkRat n d, rest2)
    | none => none
  | none => none

mutual

/-- Render an object: a tag character followed by the payload. -/
def encodeObj : PyObj → List Char
  | .pystr s => 'S' :: encodeStr s
  | .pybool true => ['B', '1']
  | .pybool false => ['B', '0']
  | .pynum q => 'N' :: encodeRat q
  | .pydict d => 'M' :: encodeDict d

/-- Render a dict: its entries followed by an end marker. -/
def encodeDict : PyDict → List Char
  | .nil => ['E']
  | .cons k v rest => 'P' :: (encodeStr k ++ encodeObj v ++ encodeDict rest)

end

mutual

/-- Parse an object, with fuel bounding the recursion depth. -/
def decodeObj : Nat → List Char → Option (PyObj × List Char)
  | 0, _ => none
  | _ + 1, 'S' :: rest => (decodeStr rest).map (fun p => (.pystr p.1, p.2))
  | _ + 1, 'B' :: '1' :: rest => some (.pybool true, rest)
  | _ + 1, 'B' :: '0' :: rest => some (.pybool false, rest)
  | _ + 1, 'N' :: rest => (decodeRat rest).map (fun p => (.pynum p.1, p.2))
  | fuel + 1, 'M' :: rest => (decodeDict fuel rest).map (fun p => (.pydict p.1, p.2))
  | _ + 1, _ => none

/-- Parse a dict's entries, with fuel bounding the recursion depth. -/
def decodeDict : Nat → List Char → Option (PyDict × List Char)
  | 0, _ => none
  | _ + 1, 'E' :: rest => some (.nil, rest)
  | fuel + 1, 'P' :: rest =>
    match decodeStr rest with
    | some (k, rest1) =>
      match decodeObj fuel rest1 with
      | some (v, rest2) =>
        match decodeDict fuel rest2 with
        | some (d, rest3) => some (.cons k v d, rest3)
        | none => none
      | none => none
    | none => none
  | _ + 1, _ => none

end

mutual

/-- Constructor count of an object, a lower bound for the parsing fuel. -/
def sizeObj : PyObj → Nat
  | .pystr _ => 1
  | .pybool _ => 1
  | .pynum _ => 1
  | .pydict d => sizeDict d + 1

/-- Constructor count of a dict. -/
def sizeDict : PyDict → Nat
  | .nil => 1
  | .cons _ v rest => sizeObj v + sizeDict rest + 1

end

/-- `yaml.dump`: render a value as text. -/
def yaml.dump (v : PyObj) : String :=
  ⟨encodeObj v⟩

/-- `yaml.safe_load`: parse text back into a value; a document that cannot be
parsed in full is a `ParseError` (modelling `yaml.YAMLError`). -/
def yaml.safe_load (s : String) : Except PyError PyObj :=
  match decodeObj s.data.length s.data with
  | some (v, []) => Except.ok v
  | _ => Except.error (.parseError "could not parse the document")

theorem decodeNat_encodeNat (n : Nat) (rest : List Char) :
    decodeNat (encodeNat n ++ rest) = some (n, rest) := by
  induction n with
  | zero => simp [encodeNat, decodeNat]
  | succ n ih => simp [encodeNat, decodeNat, ih]

theorem decodeStr_encodeStr (s : String) (rest : List Char) :
    decodeStr (encodeStr s ++ rest) = some (s, rest) := by
  simp only [decodeStr, encodeStr, List.append_assoc, decodeNat_encodeNat]
  rw [if_pos (by simp)]
  simp [List.take_left, List.drop_left]

theorem decodeInt_encodeInt (i : Int) (rest : List Char) :
    decodeInt (encodeInt i ++ rest) = some (i, rest) := by
  cases i <;> simp [encodeInt, decodeInt, decodeNat_encodeNat]

theorem decodeRat_encodeRat (q : Rat) (rest : List Char) :
    decodeRat (encodeRat q ++ rest) = some (q, rest) := by
  simp only [decodeRat, encodeRat, List.append_assoc, decodeInt_encodeInt,
    decodeNat_encodeNat, Rat.mkRat_self]

theorem sizeObj_pos (v : PyObj) : 1 ≤ sizeObj v := by
  cases v <;> simp [sizeObj]

theorem sizeDict_pos (d : PyDict) : 1 ≤ sizeDict d := by
  cases d <;> simp [sizeDict]

mutual

theorem decodeObj_encodeObj : ∀ (v : PyObj) (fuel : Nat) (rest : List Char),
    sizeObj v ≤ fuel → decodeObj fuel (encodeObj v ++ rest) = some (v, rest)
  | v, 0, _, h => absurd h (by have := sizeObj_pos v; omega)
  | .pystr s, fuel + 1, rest, _ => by
      simp [encodeObj, decodeObj, decodeStr_encodeStr]
  | .pybool true, fuel + 1, rest, _ => by simp [encodeObj, decodeObj]
  | .pybool false, fuel + 1, rest, _ => by simp [encodeObj, decodeObj]
  | .pynum q, fuel + 1, rest, _ => by
      simp [encodeObj, decodeObj, decodeRat_encodeRat]
  | .pydict d, fuel + 1, rest, h => by
      have hd : sizeDict d ≤ fuel := by simp [sizeObj] at h; omega
      simp [encodeObj, decodeObj, decodeDict_encodeDict d fuel rest hd]

theorem decodeDict_encodeDict : ∀ (d : PyDict) (fuel : Nat) (rest : List Char),
    sizeDict d ≤ fuel → decodeDict fuel (encodeDict d ++ rest) = some (d, rest)
  | d, 0, _, h => absurd h (by have := sizeDict_pos d; omega)
  | .nil, fuel + 1, rest, _ => by simp [encodeDict, decodeDict]
  | .cons k v r, fuel + 1, rest, h => by
      have hv : sizeObj v ≤ fuel := by
        simp [sizeDict] at h; have := sizeDict_pos r; omega
      have hr : sizeDict r ≤ fuel := by
        simp [sizeDict] at h; have := sizeObj_pos v; omega
      simp [encodeDict, decodeDict, List.append_assoc, decodeStr_encodeStr,
        decodeObj_encodeObj v fuel _ hv, decodeDict_encodeDict r fuel _ hr]

end

mutual

theorem sizeObj_le_length : ∀ v : PyObj, sizeObj v ≤ (encodeObj v).length
  | .pystr s => by simp [sizeObj, encodeObj]
  | .pybool b => by cases b <;> simp [sizeObj, encodeObj]
  | .pynum q => by simp [sizeObj, encodeObj]
  | .pydict d => by
      have := sizeDict_le_length d
      simp [sizeObj, encodeObj]; omega

theorem sizeDict_le_length : ∀ d : PyDict, sizeDict d ≤ (encodeDict d).length
  | .nil => by simp [sizeDict, encodeDict]
  | .cons k v r => by
      have h1 := sizeObj_le_length v
      have h2 := sizeDict_le_length r
      simp [sizeDict, encodeDict]; omega

end

/-- The library contract this module relies on: parsing a dumped value yields
that value back. -/
theorem yaml.safe_load_dump (v : PyObj) : yaml.safe_load (yaml.dump v) = Except.ok v := by
  have hdata : (yaml.dump v).data = encodeObj v := rfl
  have h : decodeObj (encodeObj v).length (encodeObj v ++ []) = some (v, []) :=
    decodeObj_encodeObj v (encodeObj v).length [] (sizeObj_le_length v)
  rw [List.append_nil] at h
  simp [yaml.safe_load, hdata, h]

/-- `HandeyeCalibration.to_yaml`. -/
def HandeyeCalibration.to_yaml (calibration : HandeyeCalibration) : String :=
  yaml.dump (.pydict (HandeyeCalibration.to_dict calibration))

/-- `HandeyeCalibration.from_yaml`. -/
def HandeyeCalibration.from_yaml (in_yaml : String) : Except PyError HandeyeCalibration :=
  match yaml.safe_load in_yaml with
  | .ok v => HandeyeCalibration.from_dict v
  | .error e => Except.error e

/-- The default calibration directory (`os.path.expanduser` is
environment-dependent and is kept symbolic as the unexpanded path; the
constant only feeds the directory-creation step of `to_file`, which never
reaches a file operation). -/
def HandeyeCalibration.DIRECTORY : String := "~/.ros2/easy_handeye"

/-- A file system: a partial map from paths to file contents.  Directory
structure is not modelled; the only operation that touches directories
(`to_file`'s `makedirs`) aborts before writing any file. -/
def Filesystem : Type := String → Option String

/-- `HandeyeCalibration.filename`: unconditionally raises `ValueError('TODO')`;
the line after the raise is unreachable. -/
def HandeyeCalibration.filename (calibration : HandeyeCalibration) : Except PyError String :=
  Except.error (.valueError "TODO")

/-- `HandeyeCalibration.filename_for_namespace`: unconditionally raises
`ValueError('TODO')`; the line after the raise is unreachable (and refers to
an undefined variable). -/
def HandeyeCalibration.filename_for_namespace (nm : String) : Except PyError String :=
  Except.error (.valueError "TODO")

/-- `HandeyeCalibration.to_file`: ensure the directory exists, then write the
yaml rendering to the derived path.  The path derivation raises before the
file is opened. -/
def HandeyeCalibration.to_file (fs : Filesystem) (calibration : HandeyeCalibration) :
    Except PyError Filesystem :=
  match HandeyeCalibration.filename calibration with
  | .ok fn =>
    Except.ok (fun p => if p = fn then some (HandeyeCalibration.to_yaml calibration) else fs p)
  | .error e => Except.error e

/-- `HandeyeCalibration.from_file`: derive the conventional path from the
namespace and parse the file there. -/
def HandeyeCalibration.from_file (fs : Filesystem) (nmspace : String) :
    Except PyError HandeyeCalibration :=
  match HandeyeCalibration.filename_for_namespace nmspace with
  | .ok fn =>
    match fs fn with
    | some text => HandeyeCalibration.from_yaml text
    | none => Except.error (.fileNotFoundError fn)
  | .error e => Except.error e

/-- `HandeyeCalibration.from_filename`: parse the file at an explicit path. -/
def HandeyeCalibration.from_filename (fs : Filesystem) (filename : String) :
    Except PyError HandeyeCalibration :=
  match fs filename with
  | some text => HandeyeCalibration.from_yaml text
  | none => Except.error (.fileNotFoundError filename)

/-- The typed value of one declared parameter, as
`get_parameter(name).get_parameter_value()` exposes it: a string view and a
boolean view. -/
structure rclpy.ParameterValue where
  string_value : String := ""
  bool_value : Bool := false

/-- The configuration provider: a node, reduced to the lookup
`get_parameter(name).get_parameter_value()` that `read` performs.  The
`declare_parameter` registrations are provider-internal bookkeeping. -/
structure rclpy.Node where
  get_parameter_value : String → rclpy.ParameterValue

/-- `HandeyeCalibrationParametersProvider`. -/
structure HandeyeCalibrationParametersProvider where
  node : rclpy.Node

/-- The seven parameter names declared by the provider's constructor. -/
def declaredNames : List String :=
  ["name", "eye_in_hand", "robot_base_frame", "robot_effector_frame",
   "tracking_base_frame", "tracking_marker_frame", "freehand_robot_movement"]

/-- `HandeyeCalibrationParametersProvider.read`: fetch the seven declared
values with the corresponding typed accessor; the two optional dataclass
fields are not passed and keep their declared defaults. -/
def HandeyeCalibrationParametersProvider.read
    (provider : HandeyeCalibrationParametersProvider) : HandeyeCalibrationParameters :=
  { name := (provider.node.get_parameter_value "name").string_value
    eye_in_hand := (provider.node.get_parameter_value "eye_in_hand").bool_value
    robot_base_frame := (provider.node.get_parameter_value "robot_base_frame").string_value
    robot_effector_frame := (provider.node.get_parameter_value "robot_effector_frame").string_value
    tracking_base_frame := (provider.node.get_parameter_value "tracking_base_frame").string_value
    tracking_marker_frame := (provider.node.get_parameter_value "tracking_marker_frame").string_value
    freehand_robot_movement := (provider.node.get_parameter_value "freehand_robot_movement").bool_value }

/-- A sample parameter record (spec §8's example). -/
def exampleParams : HandeyeCalibrationParameters :=
  { name := "cal1", eye_in_hand := true, robot_base_frame := "base_link",
    robot_effector_frame := "tool0", tracking_base_frame := "camera",
    tracking_marker_frame := "marker", freehand_robot_movement := false }

/-- A sample transform. -/
def exampleTransform : geometry_msgs.Transform :=
  { translation := { x := 1, y := 2, z := 3 }
    rotation := { x := 0, y := 0, z := 0, w := 1 } }

/-- The record that `__init__` assembles from the sample inputs. -/
def exampleCal : HandeyeCalibration :=
  { parameters := exampleParams
    transformation :=
      { header := { frame_id := "tool0" }
        child_frame_id := "camera"
        transform := exampleTransform } }

/-- A file system holding the sample record's yaml rendering at one path. -/
def exampleFs : Filesystem :=
  fun p => if p = "/tmp/calib.yaml" then some (HandeyeCalibration.to_yaml exampleCal) else none

/-- Reconstructing from the canonical mapping of a record succeeds and yields
the record with the tf names re-derived from its parameters. -/
theorem from_dict_to_dict (c : HandeyeCalibration) :
    HandeyeCalibration.from_dict (.pydict (HandeyeCalibration.to_dict c)) =
      Except.ok
        { parameters := c.parameters
          transformation :=
            { header :=
                { frame_id :=
                    if c.parameters.eye_in_hand then c.parameters.robot_effector_frame
                    else c.parameters.robot_base_frame }
              child_frame_id := c.parameters.tracking_base_frame
              transform := c.transformation.transform } } := rfl

theorem ok_bind {α β : Type} (a : α) (f : α → Except PyError β) :
    (Except.ok a >>= f) = f a := rfl

theorem error_bind {α β : Type} (e : PyError) (f : α → Except PyError β) :
    (Except.error e >>= f : Except PyError β) = Except.error e := rfl

/-- A computation that either succeeds or fails with a schema-mismatch error
(a missing key or a wrongly-typed value). -/
def okOrSchemaMismatch {α : Type} (x : Except PyError α) : Prop :=
  (∃ a, x = Except.ok a) ∨ (∃ e, x = Except.error e ∧ e.isSchemaMismatch = true)

theorem bind_okOrSM {α β : Type} {x : Except PyError α} {f : α → Except PyError β}
    (hx : okOrSchemaMismatch x) (hf : ∀ a, okOrSchemaMismatch (f a)) :
    okOrSchemaMismatch (x >>= f) := by
  rcases hx with ⟨a, ha⟩ | ⟨e, he, hsm⟩
  · rw [ha, ok_bind]; exact hf a
  · rw [he, error_bind]; exact Or.inr ⟨e, rfl, hsm⟩

theorem subscript_okOrSM (v : PyObj) (k : String) : okOrSchemaMismatch (v.subscript k) := by
  cases v with
  | pydict d =>
    cases hd : d.get? k with
    | some w => exact Or.inl ⟨w, by simp [PyObj.subscript, hd]⟩
    | none => exact Or.inr ⟨PyError.keyError k, by simp [PyObj.subscript, hd], rfl⟩
  | pystr s => exact Or.inr ⟨_, rfl, rfl⟩
  | pybool b => exact Or.inr ⟨_, rfl, rfl⟩
  | pynum q => exact Or.inr ⟨_, rfl, rfl⟩

theorem asStr_okOrSM (v : PyObj) : okOrSchemaMismatch v.asStr := by
  cases v with
  | pystr s => exact Or.inl ⟨s, rfl⟩
  | pybool b => exact Or.inr ⟨_, rfl, rfl⟩
  | pynum q => exact Or.inr ⟨_, rfl, rfl⟩
  | pydict d => exact Or.inr ⟨_, rfl, rfl⟩

theorem asBool_okOrSM (v : PyObj) : okOrSchemaMismatch v.asBool := by
  cases v with
  | pybool b => exact Or.inl ⟨b, rfl⟩
  | pystr s => exact Or.inr ⟨_, rfl, rfl⟩
  | pynum q => exact Or.inr ⟨_, rfl, rfl⟩
  | pydict d => exact Or.inr ⟨_, rfl, rfl⟩

theorem asNum_okOrSM (v : PyObj) : okOrSchemaMismatch v.asNum := by
  cases v with
  | pynum q => exact Or.inl ⟨q, rfl⟩
  | pystr s => exact Or.inr ⟨_, rfl, rfl⟩
  | pybool b => exact Or.inr ⟨_, rfl, rfl⟩
  | pydict d => exact Or.inr ⟨_, rfl, rfl⟩

theorem asMapping_okOrSM (v : PyObj) : okOrSchemaMismatch v.asMapping := by
  cases v with
  | pydict d => exact Or.inl ⟨d, rfl⟩
  | pystr s => exact Or.inr ⟨_, rfl, rfl⟩
  | pybool b => exact Or.inr ⟨_, rfl, rfl⟩
  | pynum q => exact Or.inr ⟨_, rfl, rfl⟩

theorem reqStr_okOrSM (d : PyDict) (k : String) : okOrSchemaMismatch (reqStr d k) := by
  cases hd : d.get? k with
  | some v =>
    have : reqStr d k = v.asStr := by simp [reqStr, hd]
    rw [this]; exact asStr_okOrSM v
  | none =>
    exact Or.inr ⟨PyError.typeError "missing required keyword argument",
      by simp [reqStr, hd], rfl⟩

theorem reqBool_okOrSM (d : PyDict) (k : String) : okOrSchemaMismatch (reqBool d k) := by
  cases hd : d.get? k with
  | some v =>
    have : reqBool d k = v.asBool := by simp [reqBool, hd]
    rw [this]; exact asBool_okOrSM v
  | none =>
    exact Or.inr ⟨PyError.typeError "missing required keyword argument",
      by simp [reqBool, hd], rfl⟩

theorem optStr_okOrSM (d : PyDict) (k dflt : String) : okOrSchemaMismatch (optStr d k dflt) := by
  cases hd : d.get? k with
  | some v =>
    have : optStr d k dflt = v.asStr := by simp [optStr, hd]
    rw [this]; exact asStr_okOrSM v
  | none => exact Or.inl ⟨dflt, by simp [optStr, hd]⟩

theorem from_kwargs_okOrSM (d : PyDict) :
    okOrSchemaMismatch (HandeyeCalibrationParameters.from_kwargs d) := by
  unfold HandeyeCalibrationParameters.from_kwargs
  split
  · apply bind_okOrSM (reqStr_okOrSM d "name"); intro a1
    apply bind_okOrSM (reqBool_okOrSM d "eye_in_hand"); intro a2
    apply bind_okOrSM (reqStr_okOrSM d "robot_base_frame"); intro a3
    apply bind_okOrSM (reqStr_okOrSM d "robot_effector_frame"); intro a4
    apply bind_okOrSM (reqStr_okOrSM d "tracking_base_frame"); intro a5
    apply bind_okOrSM (reqStr_okOrSM d "tracking_marker_frame"); intro a6
    apply bind_okOrSM (reqBool_okOrSM d "freehand_robot_movement"); intro a7
    apply bind_okOrSM (optStr_okOrSM d "move_group_namespace" "/"); intro a8
    apply bind_okOrSM (optStr_okOrSM d "move_group" "manipulator"); intro a9
    exact Or.inl ⟨_, rfl⟩
  · exact Or.inr ⟨_, rfl, rfl⟩

/-- `from_dict` either succeeds or fails with a schema-mismatch error: its
only failure sources are subscription, the keyword construction and the
component type checks. -/
theorem from_dict_okOrSM (v : PyObj) :
    okOrSchemaMismatch (HandeyeCalibration.from_dict v) := by
  unfold HandeyeCalibration.from_dict
  apply bind_okOrSM (subscript_okOrSM v "transformation"); intro tr
  apply bind_okOrSM (subscript_okOrSM v "parameters"); intro pv
  apply bind_okOrSM (asMapping_okOrSM pv); intro pd
  apply bind_okOrSM (from_kwargs_okOrSM pd); intro params
  apply bind_okOrSM (subscript_okOrSM tr "x"); intro xv
  apply bind_okOrSM (subscript_okOrSM tr "y"); intro yv
  apply bind_okOrSM (subscript_okOrSM tr "z"); intro zv
  apply bind_okOrSM (asNum_okOrSM xv); intro x
  apply bind_okOrSM (asNum_okOrSM yv); intro y
  apply bind_okOrSM (asNum_okOrSM zv); intro z
  apply bind_okOrSM (subscript_okOrSM tr "qx"); intro qxv
  apply bind_okOrSM (subscript_okOrSM tr "qy"); intro qyv
  apply bind_okOrSM (subscript_okOrSM tr "qz"); intro qzv
  apply bind_okOrSM (subscript_okOrSM tr "qw"); intro qwv
  apply bind_okOrSM (asNum_okOrSM qxv); intro qx
  apply bind_okOrSM (asNum_okOrSM qyv); intro qy
  apply bind_okOrSM (asNum_okOrSM qzv); intro qz
  apply bind_okOrSM (asNum_okOrSM qwv); intro qw
  exact Or.inl ⟨_, rfl⟩

theorem bind_eq_ok {α β : Type} {x : Except PyError α} {f : α → Except PyError β} {b : β}
    (h : (x >>= f) = Except.ok b) : ∃ a, x = Except.ok a ∧ f a = Except.ok b := by
  cases x with
  | ok a => exact ⟨a, rfl, h⟩
  | error e => exact Except.noConfusion h

theorem subscript_ok_get {d : PyDict} {k : String} {v : PyObj}
    (h : (PyObj.pydict d).subscript k = Except.ok v) : d.get? k = some v := by
  cases hd : d.get? k with
  | some w =>
    simp [PyObj.subscript, hd] at h
    rw [h]
  | none =>
    simp [PyObj.subscript, hd] at h

/-- If `from_dict` succeeds on a mapping whose `transformation` entry is the
dict `td`, then `td` carries all seven component keys. -/
theorem from_dict_ok_keys {m td : PyDict} {r : HandeyeCalibration}
    (hok : HandeyeCalibration.from_dict (.pydict m) = Except.ok r)
    (htd : m.get? "transformation" = some (.pydict td)) :
    ∀ k ∈ ["x", "y", "z", "qx", "qy", "qz", "qw"], ∃ v, td.get? k = some v := by
  unfold HandeyeCalibration.from_dict at hok
  obtain ⟨tr, htr, hok⟩ := bind_eq_ok hok
  have htr2 : tr = PyObj.pydict td := by
    have := subscript_ok_get htr
    rw [htd] at this; injection this with hh; exact hh.symm
  subst htr2
  obtain ⟨pv, _, hok⟩ := bind_eq_ok hok
  obtain ⟨pd, _, hok⟩ := bind_eq_ok hok
  obtain ⟨params, _, hok⟩ := bind_eq_ok hok
  obtain ⟨xv, hx, hok⟩ := bind_eq_ok hok
  obtain ⟨yv, hy, hok⟩ := bind_eq_ok hok
  obtain ⟨zv, hz, hok⟩ := bind_eq_ok hok
  obtain ⟨x, _, hok⟩ := bind_eq_ok hok
  obtain ⟨y, _, hok⟩ := bind_eq_ok hok
  obtain ⟨z, _, hok⟩ := bind_eq_ok hok
  obtain ⟨qxv, hqx, hok⟩ := bind_eq_ok hok
  obtain ⟨qyv, hqy, hok⟩ := bind_eq_ok hok
  obtain ⟨qzv, hqz, hok⟩ := bind_eq_ok hok
  obtain ⟨qwv, hqw, hok⟩ := bind_eq_ok hok
  intro k hk
  fin_cases hk
  · exact ⟨xv, subscript_ok_get hx⟩
  · exact ⟨yv, subscript_ok_get hy⟩
  · exact ⟨zv, subscript_ok_get hz⟩
  · exact ⟨qxv, subscript_ok_get hqx⟩
  · exact ⟨qyv, subscript_ok_get hqy⟩
  · exact ⟨qzv, subscript_ok_get hqz⟩
  · exact ⟨qwv, subscript_ok_get hqw⟩

/-- Parsing the text rendering of a record is the same as reconstructing from
its canonical structure: the external parser inverts the dump exactly. -/
theorem from_yaml_to_yaml (c : HandeyeCalibration) :
    HandeyeCalibration.from_yaml (HandeyeCalibration.to_yaml c) =
      HandeyeCalibration.from_dict (.pydict (HandeyeCalibration.to_dict c)) := by
  unfold HandeyeCalibration.from_yaml HandeyeCalibration.to_yaml
  rw [yaml.safe_load_dump]

/-- C1: for every valid `CalibrationRecord` `r`, `from_dict(to_dict(r))`
succeeds and yields a record whose parameters fields and transform components
are identical to those of `r`, with `frame_id`/`child_frame_id` recomputed
from `r.parameters` rather than taken from the structure. -/
theorem spec_roundtrip_structure (r : HandeyeCalibration) :
    ∃ r2 : HandeyeCalibration,
      HandeyeCalibration.from_dict (.pydict (HandeyeCalibration.to_dict r)) = Except.ok r2 ∧
      r2.parameters = r.parameters ∧
      r2.transformation.transform.translation.x = r.transformation.transform.translation.x ∧
      r2.transformation.transform.translation.y = r.transformation.transform.translation.y ∧
      r2.transformation.transform.translation.z = r.transformation.transform.translation.z ∧
      r2.transformation.transform.rotation.x = r.transformation.transform.rotation.x ∧
      r2.transformation.transform.rotation.y = r.transformation.transform.rotation.y ∧
      r2.transformation.transform.rotation.z = r.transformation.transform.rotation.z ∧
      r2.transformation.transform.rotation.w = r.transformation.transform.rotation.w ∧
      r2.transformation.header.frame_id =
        (if r.parameters.eye_in_hand then r.parameters.robot_effector_frame
         else r.parameters.robot_base_frame) ∧
      r2.transformation.child_frame_id = r.parameters.tracking_base_frame :=
  ⟨_, from_dict_to_dict r, rfl, rfl, rfl, rfl, rfl, rfl, rfl, rfl, rfl, rfl⟩

/-- C2: for every valid `CalibrationRecord` `r`, `from_yaml(to_yaml(r))`
succeeds and yields a record equal to `r` in the structure round-trip sense:
identical parameters and transform components, tf names re-derived from the
parameters. -/
theorem spec_roundtrip_text (r : HandeyeCalibration) :
    ∃ r2 : HandeyeCalibration,
      HandeyeCalibration.from_yaml (HandeyeCalibration.to_yaml r) = Except.ok r2 ∧
      r2.parameters = r.parameters ∧
      r2.transformation.transform.translation.x = r.transformation.transform.translation.x ∧
      r2.transformation.transform.translation.y = r.transformation.transform.translation.y ∧
      r2.transformation.transform.translation.z = r.transformation.transform.translation.z ∧
      r2.transformation.transform.rotation.x = r.transformation.transform.rotation.x ∧
      r2.transformation.transform.rotation.y = r.transformation.transform.rotation.y ∧
      r2.transformation.transform.rotation.z = r.transformation.transform.rotation.z ∧
      r2.transformation.transform.rotation.w = r.transformation.transform.rotation.w ∧
      r2.transformation.header.frame_id =
        (if r.parameters.eye_in_hand then r.parameters.robot_effector_frame
         else r.parameters.robot_base_frame) ∧
      r2.transformation.child_frame_id = r.parameters.tracking_base_frame :=
  ⟨_, (from_yaml_to_yaml r).trans (from_dict_to_dict r),
    rfl, rfl, rfl, rfl, rfl, rfl, rfl, rfl, rfl, rfl⟩

/-- C3: the path-derivation operations fail unconditionally with the
`ValueError('TODO')` placeholder, so `to_file` and `from_file` always fail,
while `from_filename` on an explicit path never touches the derivation: it is
determined by the file contents alone, and succeeds on a well-formed file. -/
theorem spec_unimplemented_path_derivation :
    (∀ c, HandeyeCalibration.filename c = Except.error (PyError.valueError "TODO")) ∧
    (∀ nm, HandeyeCalibration.filename_for_namespace nm =
      Except.error (PyError.valueError "TODO")) ∧
    (∀ (fs : Filesystem) (c : HandeyeCalibration),
      HandeyeCalibration.to_file fs c = Except.error (PyError.valueError "TODO")) ∧
    (∀ (fs : Filesystem) (nm : String),
      HandeyeCalibration.from_file fs nm = Except.error (PyError.valueError "TODO")) ∧
    (∀ (fs : Filesystem) (p text : String), fs p = some text →
      HandeyeCalibration.from_filename fs p = HandeyeCalibration.from_yaml text) ∧
    (∃ r, HandeyeCalibration.from_filename exampleFs "/tmp/calib.yaml" = Except.ok r) := by
  refine ⟨fun _ => rfl, fun _ => rfl, fun _ _ => rfl, fun _ _ => rfl, ?_, ?_⟩
  · intro fs p text h
    simp [HandeyeCalibration.from_filename, h]
  · have h1 : HandeyeCalibration.from_filename exampleFs "/tmp/calib.yaml" =
        HandeyeCalibration.from_yaml (HandeyeCalibration.to_yaml exampleCal) := rfl
    exact ⟨_, (h1.trans (from_yaml_to_yaml exampleCal)).trans (from_dict_to_dict exampleCal)⟩

/-- Witness for C3's conditional part at a concrete file system and path. -/
theorem spec_unimplemented_path_derivation_witness :
    HandeyeCalibration.from_filename exampleFs "/tmp/calib.yaml" =
      HandeyeCalibration.from_yaml (HandeyeCalibration.to_yaml exampleCal) :=
  spec_unimplemented_path_derivation.2.2.2.2.1 exampleFs "/tmp/calib.yaml"
    (HandeyeCalibration.to_yaml exampleCal) rfl

/-- C4: a record constructed from parameters `p` (and any transform argument)
has `frame_id = robot_effector_frame` when `eye_in_hand`, else
`frame_id = robot_base_frame`, and always `child_frame_id =
tracking_base_frame`. -/
theorem spec_frame_derivation (p : HandeyeCalibrationParameters)
    (t : Option geometry_msgs.Transform) (c : HandeyeCalibration)
    (h : HandeyeCalibration.init (some p) t = Except.ok c) :
    (p.eye_in_hand = true → c.transformation.header.frame_id = p.robot_effector_frame) ∧
    (p.eye_in_hand = false → c.transformation.header.frame_id = p.robot_base_frame) ∧
    c.transformation.child_frame_id = p.tracking_base_frame := by
  simp only [HandeyeCalibration.init] at h
  injection h with h
  subst h
  refine ⟨fun he => ?_, fun he => ?_, rfl⟩
  · simp [he]
  · simp [he]

/-- Witness for C4 at the sample parameters (an eye-in-hand setup). -/
theorem spec_frame_derivation_witness :
    HandeyeCalibration.init (some exampleParams) (some exampleTransform) =
      Except.ok exampleCal ∧
    exampleCal.transformation.header.frame_id = exampleParams.robot_effector_frame ∧
    exampleCal.transformation.child_frame_id = exampleParams.tracking_base_frame := by
  refine ⟨rfl, ?_, ?_⟩
  · exact (spec_frame_derivation exampleParams (some exampleTransform) exampleCal rfl).1 rfl
  · exact (spec_frame_derivation exampleParams (some exampleTransform) exampleCal rfl).2.2

/-- C5: `from_dict` on a mapping without the `transformation` key, or whose
`transformation` sub-mapping lacks any of the seven component keys, fails with
a schema-mismatch error (a missing-key or wrong-type reconstruction error). -/
theorem spec_from_dict_schema_mismatch (m : PyDict) :
    (m.get? "transformation" = none →
      ∃ e, HandeyeCalibration.from_dict (.pydict m) = Except.error e ∧
        e.isSchemaMismatch = true) ∧
    (∀ td : PyDict, m.get? "transformation" = some (.pydict td) →
      ∀ k ∈ ["x", "y", "z", "qx", "qy", "qz", "qw"], td.get? k = none →
        ∃ e, HandeyeCalibration.from_dict (.pydict m) = Except.error e ∧
          e.isSchemaMismatch = true) := by
  constructor
  · intro hnone
    refine ⟨PyError.keyError "transformation", ?_, rfl⟩
    unfold HandeyeCalibration.from_dict
    have h1 : (PyObj.pydict m).subscript "transformation" =
        Except.error (PyError.keyError "transformation") := by
      simp [PyObj.subscript, hnone]
    rw [h1, error_bind]
  · intro td htd k hk hnone
    rcases from_dict_okOrSM (PyObj.pydict m) with ⟨r, hr⟩ | ⟨e, he, hsm⟩
    · exfalso
      obtain ⟨v, hv⟩ := from_dict_ok_keys hr htd k hk
      rw [hnone] at hv
      exact Option.noConfusion hv
    · exact ⟨e, he, hsm⟩

/-- Witness for C5: the empty mapping (no `transformation` key), and a mapping
whose `transformation` sub-mapping is empty (no `x` key). -/
theorem spec_from_dict_schema_mismatch_witness :
    (∃ e, HandeyeCalibration.from_dict (.pydict .nil) = Except.error e ∧
      e.isSchemaMismatch = true) ∧
    (∃ e, HandeyeCalibration.from_dict
        (.pydict (.cons "transformation" (.pydict .nil) .nil)) = Except.error e ∧
      e.isSchemaMismatch = true) :=
  ⟨(spec_from_dict_schema_mismatch .nil).1 rfl,
   (spec_from_dict_schema_mismatch (.cons "transformation" (.pydict .nil) .nil)).2
     .nil rfl "x" (by simp) rfl⟩

/-- C6: `read()` is determined by the seven declared parameter names alone,
and the two motion-group fields of its result always hold their declared
defaults. -/
theorem spec_read_only_declared :
    (∀ p1 p2 : HandeyeCalibrationParametersProvider,
      (∀ k ∈ declaredNames,
        p1.node.get_parameter_value k = p2.node.get_parameter_value k) →
      p1.read = p2.read) ∧
    (∀ p : HandeyeCalibrationParametersProvider,
      p.read.move_group_namespace = "/" ∧ p.read.move_group = "manipulator") := by
  constructor
  · intro p1 p2 hagree
    have h1 := hagree "name" (by simp [declaredNames])
    have h2 := hagree "eye_in_hand" (by simp [declaredNames])
    have h3 := hagree "robot_base_frame" (by simp [declaredNames])
    have h4 := hagree "robot_effector_frame" (by simp [declaredNames])
    have h5 := hagree "tracking_base_frame" (by simp [declaredNames])
    have h6 := hagree "tracking_marker_frame" (by simp [declaredNames])
    have h7 := hagree "freehand_robot_movement" (by simp [declaredNames])
    unfold HandeyeCalibrationParametersProvider.read
    rw [h1, h2, h3, h4, h5, h6, h7]
  · intro p
    exact ⟨rfl, rfl⟩

/-- A provider answering every name the same way. -/
def exampleProviderA : HandeyeCalibrationParametersProvider :=
  ⟨⟨fun _ => { string_value := "frame", bool_value := true }⟩⟩

/-- A provider differing from `exampleProviderA` exactly on the two names the
reader never fetches. -/
def exampleProviderB : HandeyeCalibrationParametersProvider :=
  ⟨⟨fun k =>
      if k = "move_group" ∨ k = "move_group_namespace" then
        { string_value := "other", bool_value := false }
      else { string_value := "frame", bool_value := true }⟩⟩

/-- Witness for C6: two providers agreeing only on the seven declared names
produce the same record, and its motion-group fields are the defaults. -/
theorem spec_read_only_declared_witness :
    exampleProviderA.read = exampleProviderB.read ∧
    exampleProviderA.read.move_group_namespace = "/" ∧
    exampleProviderA.read.move_group = "manipulator" := by
  refine ⟨spec_read_only_declared.1 exampleProviderA exampleProviderB ?_,
    (spec_read_only_declared.2 exampleProviderA).1,
    (spec_read_only_declared.2 exampleProviderA).2⟩
  intro k hk
  simp only [declaredNames] at hk
  fin_cases hk <;> rfl

/-- C7: a `CalibrationParameters` built without explicit motion-group
arguments gets `move_group_namespace = "/"` and `move_group =
"manipulator"`. -/
theorem spec_params_defaults (nm : String) (eih : Bool) (rb re tb tm : String) (fhm : Bool) :
    ({ name := nm, eye_in_hand := eih, robot_base_frame := rb, robot_effector_frame := re,
       tracking_base_frame := tb, tracking_marker_frame := tm,
       freehand_robot_movement := fhm } :
        HandeyeCalibrationParameters).move_group_namespace = "/" ∧
    ({ name := nm, eye_in_hand := eih, robot_base_frame := rb, robot_effector_frame := re,
       tracking_base_frame := tb, tracking_marker_frame := tm,
       freehand_robot_movement := fhm } :
        HandeyeCalibrationParameters).move_group = "manipulator" :=
  ⟨rfl, rfl⟩

/-- C8: constructing a record with the transform argument omitted succeeds for
every parameters value and uses the default transform: all-zero translation
and the message type's default rotation. -/
theorem spec_default_transform (p : HandeyeCalibrationParameters) :
    ∃ c : HandeyeCalibration,
      HandeyeCalibration.init (some p) none = Except.ok c ∧
      c.transformation.transform = ({} : geometry_msgs.Transform) ∧
      c.transformation.transform.translation.x = 0 ∧
      c.transformation.transform.translation.y = 0 ∧
      c.transformation.transform.translation.z = 0 ∧
      c.transformation.transform.rotation = ({} : geometry_msgs.Quaternion) :=
  ⟨_, rfl, rfl, rfl, rfl, rfl, rfl⟩

/-- C10: constructing a `HandeyeCalibration` without a parameters value always
fails with an attribute error on the `None` parameters; no record is ever
produced this way. -/
theorem spec_init_requires_parameters (t : Option geometry_msgs.Transform) :
    HandeyeCalibration.init none t =
      Except.error (PyError.attributeError "NoneType object has no attribute eye_in_hand") ∧
    ∀ c : HandeyeCalibration, HandeyeCalibration.init none t ≠ Except.ok c :=
  ⟨rfl, fun _ h => Except.noConfusion h⟩

/-- C9: `to_dict` has exactly the two top-level keys `parameters` and
`transformation`; the former maps every one of the nine dataclass field names
to its value and the latter has exactly the seven component keys holding the
translation and quaternion components. -/
theorem spec_to_dict_schema (c : HandeyeCalibration) :
    ∃ pd td : PyDict,
      (HandeyeCalibration.to_dict c).keys = ["parameters", "transformation"] ∧
      (HandeyeCalibration.to_dict c).get? "parameters" = some (.pydict pd) ∧
      (HandeyeCalibration.to_dict c).get? "transformation" = some (.pydict td) ∧
      pd.keys = paramFieldNames ∧
      pd.get? "name" = some (.pystr c.parameters.name) ∧
      pd.get? "eye_in_hand" = some (.pybool c.parameters.eye_in_hand) ∧
      pd.get? "robot_base_frame" = some (.pystr c.parameters.robot_base_frame) ∧
      pd.get? "robot_effector_frame" = some (.pystr c.parameters.robot_effector_frame) ∧
      pd.get? "tracking_base_frame" = some (.pystr c.parameters.tracking_base_frame) ∧
      pd.get? "tracking_marker_frame" = some (.pystr c.parameters.tracking_marker_frame) ∧
      pd.get? "freehand_robot_movement" = some (.pybool c.parameters.freehand_robot_movement) ∧
      pd.get? "move_group_namespace" = some (.pystr c.parameters.move_group_namespace) ∧
      pd.get? "move_group" = some (.pystr c.parameters.move_group) ∧
      td.keys = ["x", "y", "z", "qx", "qy", "qz", "qw"] ∧
      td.get? "x" = some (.pynum c.transformation.transform.translation.x) ∧
      td.get? "y" = some (.pynum c.transformation.transform.translation.y) ∧
      td.get? "z" = some (.pynum c.transformation.transform.translation.z) ∧
      td.get? "qx" = some (.pynum c.transformation.transform.rotation.x) ∧
      td.get? "qy" = some (.pynum c.transformation.transform.rotation.y) ∧
      td.get? "qz" = some (.pynum c.transformation.transform.rotation.z) ∧
      td.get? "qw" = some (.pynum c.transformation.transform.rotation.w) :=
  ⟨asdict c.parameters, _, rfl, rfl, rfl, rfl, rfl, rfl, rfl, rfl, rfl, rfl, rfl, rfl, rfl,
    rfl, rfl, rfl, rfl, rfl, rfl, rfl, rfl⟩

/-- Witness for C1 at the sample record. -/
theorem spec_roundtrip_structure_witness :
    ∃ r2 : HandeyeCalibration,
      HandeyeCalibration.from_dict (.pydict (HandeyeCalibration.to_dict exampleCal)) =
        Except.ok r2 ∧
      r2.parameters = exampleCal.parameters ∧
      r2.transformation.transform.translation.x =
        exampleCal.transformation.transform.translation.x ∧
      r2.transformation.transform.translation.y =
        exampleCal.transformation.transform.translation.y ∧
      r2.transformation.transform.translation.z =
        exampleCal.transformation.transform.translation.z ∧
      r2.transformation.transform.rotation.x =
        exampleCal.transformation.transform.rotation.x ∧
      r2.transformation.transform.rotation.y =
        exampleCal.transformation.transform.rotation.y ∧
      r2.transformation.transform.rotation.z =
        exampleCal.transformation.transform.rotation.z ∧
      r2.transformation.transform.rotation.w =
        exampleCal.transformation.transform.rotation.w ∧
      r2.transformation.header.frame_id =
        (if exampleCal.parameters.eye_in_hand then exampleCal.parameters.robot_effector_frame
         else exampleCal.parameters.robot_base_frame) ∧
      r2.transformation.child_frame_id = exampleCal.parameters.tracking_base_frame :=
  spec_roundtrip_structure exampleCal

/-- Witness for C2 at the sample record. -/
theorem spec_roundtrip_text_witness :
    ∃ r2 : HandeyeCalibration,
      HandeyeCalibration.from_yaml (HandeyeCalibration.to_yaml exampleCal) = Except.ok r2 ∧
      r2.parameters = exampleCal.parameters ∧
      r2.transformation.transform.translation.x =
        exampleCal.transformation.transform.translation.x ∧
      r2.transformation.transform.translation.y =
        exampleCal.transformation.transform.translation.y ∧
      r2.transformation.transform.translation.z =
        exampleCal.transformation.transform.translation.z ∧
      r2.transformation.transform.rotation.x =
        exampleCal.transformation.transform.rotation.x ∧
      r2.transformation.transform.rotation.y =
        exampleCal.transformation.transform.rotation.y ∧
      r2.transformation.transform.rotation.z =
        exampleCal.transformation.transform.rotation.z ∧
      r2.transformation.transform.rotation.w =
        exampleCal.transformation.transform.rotation.w ∧
      r2.transformation.header.frame_id =
        (if exampleCal.parameters.eye_in_hand then exampleCal.parameters.robot_effector_frame
         else exampleCal.parameters.robot_base_frame) ∧
      r2.transformation.child_frame_id = exampleCal.parameters.tracking_base_frame :=
  spec_roundtrip_text exampleCal

/-- Witness for C7 at concrete field values. -/
theorem spec_params_defaults_witness :
    ({ name := "cal1", eye_in_hand := true, robot_base_frame := "base_link",
       robot_effector_frame := "tool0", tracking_base_frame := "camera",
       tracking_marker_frame := "marker", freehand_robot_movement := false } :
        HandeyeCalibrationParameters).move_group_namespace = "/" ∧
    ({ name := "cal1", eye_in_hand := true, robot_base_frame := "base_link",
       robot_effector_frame := "tool0", tracking_base_frame := "camera",
       tracking_marker_frame := "marker", freehand_robot_movement := false } :
        HandeyeCalibrationParameters).move_group = "manipulator" :=
  spec_params_defaults "cal1" true "base_link" "tool0" "camera" "marker" false

/-- Witness for C8 at the sample parameters. -/
theorem spec_default_transform_witness :
    ∃ c : HandeyeCalibration,
      HandeyeCalibration.init (some exampleParams) none = Except.ok c ∧
      c.transformation.transform = ({} : geometry_msgs.Transform) ∧
      c.transformation.transform.translation.x = 0 ∧
      c.transformation.transform.translation.y = 0 ∧
      c.transformation.transform.translation.z = 0 ∧
      c.transformation.transform.rotation = ({} : geometry_msgs.Quaternion) :=
  spec_default_transform exampleParams

/-- Witness for C9 at the sample record. -/
theorem spec_to_dict_schema_witness :
    ∃ pd td : PyDict,
      (HandeyeCalibration.to_dict exampleCal).keys = ["parameters", "transformation"] ∧
      (HandeyeCalibration.to_dict exampleCal).get? "parameters" = some (.pydict pd) ∧
      (HandeyeCalibration.to_dict exampleCal).get? "transformation" = some (.pydict td) ∧
      pd.keys = paramFieldNames ∧
      pd.get? "name" = some (.pystr exampleCal.parameters.name) ∧
      pd.get? "eye_in_hand" = some (.pybool exampleCal.parameters.eye_in_hand) ∧
      pd.get? "robot_base_frame" = some (.pystr exampleCal.parameters.robot_base_frame) ∧
      pd.get? "robot_effector_frame" =
        some (.pystr exampleCal.parameters.robot_effector_frame) ∧
      pd.get? "tracking_base_frame" = some (.pystr exampleCal.parameters.tracking_base_frame) ∧
      pd.get? "tracking_marker_frame" =
        some (.pystr exampleCal.parameters.tracking_marker_frame) ∧
      pd.get? "freehand_robot_movement" =
        some (.pybool exampleCal.parameters.freehand_robot_movement) ∧
      pd.get? "move_group_namespace" =
        some (.pystr exampleCal.parameters.move_group_namespace) ∧
      pd.get? "move_group" = some (.pystr exampleCal.parameters.move_group) ∧
      td.keys = ["x", "y", "z", "qx", "qy", "qz", "qw"] ∧
      td.get? "x" = some (.pynum exampleCal.transformation.transform.translation.x) ∧
      td.get? "y" = some (.pynum exampleCal.transformation.transform.translation.y) ∧
      td.get? "z" = some (.pynum exampleCal.transformation.transform.translation.z) ∧
      td.get? "qx" = some (.pynum exampleCal.transformation.transform.rotation.x) ∧
      td.get? "qy" = some (.pynum exampleCal.transformation.transform.rotation.y) ∧
      td.get? "qz" = some (.pynum exampleCal.transformation.transform.rotation.z) ∧
      td.get? "qw" = some (.pynum exampleCal.transformation.transform.rotation.w) :=
  spec_to_dict_schema exampleCal

/-- Witness for C10: the no-argument construction fails concretely. -/
theorem spec_init_requires_parameters_witness :
    HandeyeCalibration.init none none =
      Except.error (PyError.attributeError "NoneType object has no attribute eye_in_hand") ∧
    HandeyeCalibration.init none none ≠ Except.ok exampleCal :=
  ⟨(spec_init_requires_parameters none).1,
   (spec_init_requires_parameters none).2 exampleCal⟩
